import Mathlib

/-!
Verification of the selmon result-aggregation core: a shallow embedding of
`selmon/nagios/nagiosmessage.py`, `selmon/nagios/contextmanagers.py` and the
supervisor logic of `selmon/nagios/plugin.py`, with theorems about severity
escalation, sample rendering, the benchmark context manager and the
supervised execution lifecycle.
-/

namespace Selmon

/-- Constant `NagiosMessage.NAGIOS_STATUS_OK` (nagiosmessage.py line 3). -/
def NAGIOS_STATUS_OK : Nat := 0

/-- Constant `NagiosMessage.NAGIOS_STATUS_WARNING` (nagiosmessage.py line 4). -/
def NAGIOS_STATUS_WARNING : Nat := 1

/-- Constant `NagiosMessage.NAGIOS_STATUS_CRITICAL` (nagiosmessage.py line 5). -/
def NAGIOS_STATUS_CRITICAL : Nat := 2

/-- Constant `NagiosMessage.NAGIOS_STATUS_UNKNOWN` (nagiosmessage.py line 6). -/
def NAGIOS_STATUS_UNKNOWN : Nat := 3

/-- Constant `NagiosMessage.UOM_SEC` (nagiosmessage.py line 8). -/
def UOM_SEC : String := "s"

/-- Models Python `str()` on the numeric arguments of `add_perfdata` and
`benchmark`. Python hands these methods ints (the thresholds and test
values) and floats (elapsed times); we model both by rationals. For an
integral value this matches `str` of a Python int byte for byte; the
decimal repr of a non-integral float is abstracted by the rational repr
(no claim pins those bytes). -/
def pyStr (q : ℚ) : String :=
  if q.den = 1 then toString q.num else toString q

/-- Per-instance view of `NagiosMessage` (nagiosmessage.py): the status
code set by `__init__`, plus the message and perfdata sequences the
methods append to. Adequate for a process that constructs a single
aggregator, which is how `Plugin` uses it; the fact that in the source
`msg` and `perfdata` are class attributes shared by all instances is
modelled separately below (`NagiosClassState`). -/
structure NagiosMessage where
  status_code : Nat
  msg : List String
  perfdata : List String
deriving DecidableEq, Repr

/-- Embeds `NagiosMessage.__init__`: status starts at `NAGIOS_STATUS_OK`; in a
fresh process the message and perfdata containers are empty. -/
def NagiosMessage.new : NagiosMessage :=
  { status_code := NAGIOS_STATUS_OK, msg := [], perfdata := [] }

/-- Embeds `NagiosMessage.add_msg`: `self.msg.append(msg)`. -/
def NagiosMessage.add_msg (m : NagiosMessage) (s : String) : NagiosMessage :=
  { m with msg := m.msg ++ [s] }

/-- Embeds `NagiosMessage.raise_status`: `if status_code > self.status_code:
self.status_code = status_code`. -/
def NagiosMessage.raise_status (m : NagiosMessage) (status_code : Nat) : NagiosMessage :=
  if status_code > m.status_code then { m with status_code := status_code } else m

/-- Embeds `NagiosMessage.add_perfdata`: builds
`"'%s'=%s%s;%s;%s;%s;%s" % (label, str(real), uom, str(warn), str(crit),
str(minval), str(maxval))` and appends it to `self.perfdata`. The numeric
arguments go through `pyStr`; `minval` and `maxval` default to the empty
string as in the source (`str` of a Python string is itself). -/
def NagiosMessage.add_perfdata (m : NagiosMessage) (label uom : String)
    (real warn crit : ℚ) (minval : String := "") (maxval : String := "") : NagiosMessage :=
  let datastr := "'" ++ label ++ "'=" ++ pyStr real ++ uom ++ ";" ++ pyStr warn ++ ";"
      ++ pyStr crit ++ ";" ++ minval ++ ";" ++ maxval
  { m with perfdata := m.perfdata ++ [datastr] }

/-- Embeds `NagiosMessage.prepend_nagios_output`: prefixes the message with the
text form of the current status code, or returns it unchanged for a code
outside 0..3. -/
def NagiosMessage.prepend_nagios_output (m : NagiosMessage) (message : String) : String :=
  if m.status_code = NAGIOS_STATUS_OK then "OK: " ++ message
  else if m.status_code = NAGIOS_STATUS_WARNING then "WARNING: " ++ message
  else if m.status_code = NAGIOS_STATUS_CRITICAL then "CRITICAL: " ++ message
  else if m.status_code = NAGIOS_STATUS_UNKNOWN then "UNKNOWN: " ++ message
  else message

/-- Embeds `NagiosMessage.__str__`: the rendered report,
`prepend_nagios_output(", ".join(msg) + " | " + " ".join(perfdata))`. -/
def NagiosMessage.toStr (m : NagiosMessage) : String :=
  m.prepend_nagios_output (String.intercalate ", " m.msg ++ " | "
    ++ String.intercalate " " m.perfdata)

/-- Fold of `raise_status` over a sequence of escalations, modelling a
sequence of `raise_status` calls on one aggregator. -/
def raiseAll (m : NagiosMessage) (xs : List Nat) : NagiosMessage :=
  xs.foldl NagiosMessage.raise_status m

/-- Rendering as the spec describes it (section 4.1 `render()`): a severity
prefix, the messages joined with a comma-space, a pipe separator, the
space-joined samples. Written from the spec wording, to be compared with
`NagiosMessage.toStr`, the embedding of the source. -/
def renderSpec (m : NagiosMessage) : String :=
  let pre :=
    if m.status_code = 0 then "OK: "
    else if m.status_code = 1 then "WARNING: "
    else if m.status_code = 2 then "CRITICAL: "
    else "UNKNOWN: "
  pre ++ String.intercalate ", " m.msg ++ " | " ++ String.intercalate " " m.perfdata

/-- Outcome of the block scoped by the `benchmark` context manager: it
either completes normally or raises, in both cases after some elapsed
wall-clock time (an environment input, modelled as a rational). -/
inductive BlockResult where
  | completes (elapsed : ℚ)
  | raises (elapsed : ℚ)
deriving DecidableEq, Repr

/-- Embeds `contextmanagers.benchmark`. The source is a `@contextmanager`
generator with a bare `yield` and no try/finally: when the with-body
raises, the exception is thrown into the generator at the `yield` and
propagates, so none of the code after the `yield` (the message, the
perfdata sample, the threshold checks) runs. The returned Bool records
whether an exception propagates to the caller. -/
def benchmark (nagios_message : NagiosMessage) (label : String)
    (warning : ℚ := 3) (critical : ℚ := 5) : BlockResult → NagiosMessage × Bool
  | .raises _ => (nagios_message, true)
  | .completes elapsed =>
    let m1 := nagios_message.add_msg (label ++ " executed in " ++ pyStr elapsed ++ " seconds")
    let m2 := m1.add_perfdata label UOM_SEC elapsed warning critical
    let m3 :=
      if elapsed > critical then
        (m2.add_msg ("'" ++ label ++ "' exceeded critical threshold of " ++ pyStr critical)).raise_status
          NAGIOS_STATUS_CRITICAL
      else if elapsed > warning then
        (m2.add_msg ("'" ++ label ++ "' exceeded warning threshold of " ++ pyStr warning)).raise_status
          NAGIOS_STATUS_WARNING
      else m2
    (m3, false)

/-- Splits a character sequence at each occurrence of the conversion
specifier `%s`, the only specifier the format strings of plugin.py use. -/
def splitOnSpec : List Char → List (List Char)
  | [] => [[]]
  | '%' :: 's' :: rest => [] :: splitOnSpec rest
  | c :: rest =>
    match splitOnSpec rest with
    | h :: t => (c :: h) :: t
    | [] => [[c]]

/-- Models Python 2 percent-formatting `fmt % arg` of one non-tuple
argument, for a format string whose only conversion specifier (if any) is
`%s`, which covers every format in plugin.py. Exactly one `%s`: the
argument is substituted. No specifier: Python raises
`TypeError: not all arguments converted during string formatting`;
more than one: `TypeError: not enough arguments` — both are `none`. -/
def pyFormat1 (fmt arg : String) : Option String :=
  match splitOnSpec fmt.data with
  | [a, b] => some (String.mk a ++ arg ++ String.mk b)
  | _ => none

/-- Models Python 2 percent-formatting `fmt % (x, y)` of a two-tuple, for
a format string whose conversion specifiers are all `%s`: exactly two
`%s` substitute, any other count raises TypeError (`none`). -/
def pyFormat2 (fmt x y : String) : Option String :=
  match splitOnSpec fmt.data with
  | [a, b, c] => some (String.mk a ++ x ++ String.mk b ++ y ++ String.mk c)
  | _ => none

/-- The keys of `Plugin.capabilities_mapping` (plugin.py lines 54..66). -/
def capabilityNames : List String :=
  ["chrome", "firefox", "android", "phantomjs", "opera", "htmlunit",
   "htmlunit_withjs", "ie", "ipad", "iphone", "safari"]

/-- The already-parsed command line values the supervisor consumes
(`self.args.host`, `self.args.timeout`, `self.args.browser`). -/
structure Config where
  host : String
  timeout : Nat
  browser : String
deriving DecidableEq, Repr

/-- Externally observable process actions of the supervisor: arming the
SIGALRM countdown (`signal.alarm(n)`; `signal.alarm(0)` would disarm it),
quitting the driver, printing a line to stdout, and exiting with a code. -/
inductive Event where
  | setAlarm (seconds : Nat)
  | quitDriver
  | print (line : String)
  | exit (code : Nat)
deriving DecidableEq, Repr

/-- Whether an event is the report being printed. -/
def Event.isPrint : Event → Bool
  | .print _ => true
  | _ => false

/-- Whether an event manipulates the SIGALRM countdown. -/
def Event.isSetAlarm : Event → Bool
  | .setAlarm _ => true
  | _ => false

/-- How the try-body of `Plugin.start` (init_connection; init_driver;
run) ends: normally, or with one of the exceptions the handlers
distinguish. `generic` carries `str(type(e))` and the exception's args
(modelled as strings, the form `%s` renders them in). -/
inductive RunOutcome where
  | success
  | globalTimeout
  | connFault
  | driverInitFault
  | generic (kind : String) (args : List String)
deriving DecidableEq, Repr

/-- Whether `self.driver` is set when the finally block runs: it is set
by `init_driver` on the paths that get past it, still `None` when
`init_connection` or `init_driver` itself failed, and either way when the
alarm fired (`d` says where it fired). -/
def driverAcquired : RunOutcome → Bool → Bool
  | .success, _ => true
  | .generic _ _, _ => true
  | .globalTimeout, d => d
  | .connFault, _ => false
  | .driverInitFault, _ => false

/-- The generic `except Exception` handler of `Plugin.start` (lines
226..232): an empty `e.args` is first rewritten to
`('No message in exception',)`, then the `FAILED:` message is formatted
from `str(type(e))` and `e.args[0]` and added, and the status is raised
to CRITICAL. Returns the rewritten args, the updated aggregator, and
whether the handler itself raised. -/
def handleGenericException (m : NagiosMessage) (kind : String) (args : List String) :
    List String × NagiosMessage × Bool :=
  let args2 := if args = [] then ["No message in exception"] else args
  match pyFormat2 "FAILED: Exception of type: %s, message: %s" kind (args2.headD "") with
  | some s => (args2, (m.add_msg s).raise_status NAGIOS_STATUS_CRITICAL, false)
  | none => (args2, m, true)

/-- The exception handlers of `Plugin.start` (lines 217..232) as a state
update on the aggregator. The returned Bool records whether the handler
itself raised: in the `ConnectionException` handler the source formats
`'Could not connect to Selenium server at ' % self.args.host`, a format
string with no conversion specifier, so the percent operator raises
TypeError before `add_msg` is called, and neither the message nor the
UNKNOWN escalation happens; the TypeError then propagates into the
finally block, where `sys.exit` replaces it. -/
def handleFault (cfg : Config) (m : NagiosMessage) : RunOutcome → NagiosMessage × Bool
  | .success => (m, false)
  | .globalTimeout =>
    match pyFormat1 "Global timeout of %s seconds reached" (toString cfg.timeout) with
    | some s => ((m.add_msg s).raise_status NAGIOS_STATUS_CRITICAL, false)
    | none => (m, true)
  | .connFault =>
    match pyFormat1 "Could not connect to Selenium server at " cfg.host with
    | some s => ((m.add_msg s).raise_status NAGIOS_STATUS_UNKNOWN, false)
    | none => (m, true)
  | .driverInitFault =>
    ((m.add_msg "Could not initialize Selenium driver").raise_status NAGIOS_STATUS_UNKNOWN, false)
  | .generic kind args =>
    let r := handleGenericException m kind args
    (r.2.1, r.2.2)

/-- Embeds `Plugin.start` (plugin.py lines 199..238): arm the alarm, run the
try-body (its outcome is the environment input `o`), dispatch the matching
handler, then the finally block: quit the driver if one was acquired,
print the rendered aggregator, exit with its status code. `sys.exit` in
the finally block runs on every path, also when the handler itself raised
(the pending exception is replaced). Returns the final aggregator and the
trace of observable events. -/
def start (cfg : Config) (o : RunOutcome) (d : Bool) : NagiosMessage × List Event :=
  let m1 := (handleFault cfg NagiosMessage.new o).1
  let tr := [Event.setAlarm cfg.timeout]
      ++ (if driverAcquired o d then [Event.quitDriver] else [])
      ++ [Event.print m1.toStr, Event.exit m1.status_code]
  (m1, tr)

/-- The invalid-browser short-circuit in `Plugin.__init__` (lines
87..90): when the browser name is not a key of `capabilities_mapping`,
the message is added, the status raised to UNKNOWN and the process exits
with that status code — without printing anything. For a valid name the
constructor emits nothing. Returns the aggregator and the trace. -/
def pluginInit (browser : String) : NagiosMessage × List Event :=
  let m := NagiosMessage.new
  if capabilityNames.contains browser then (m, [])
  else
    let m1 := (m.add_msg ("browser is invalid: " ++ browser)).raise_status NAGIOS_STATUS_UNKNOWN
    (m1, [Event.exit m1.status_code])

/-- The class attributes `msg = []` and `perfdata = []` of
`NagiosMessage` (nagiosmessage.py lines 18..19). In Python these two
lists belong to the class object and are shared by every instance:
`__init__` assigns only `self.status_code`, and `self.msg.append(...)`
looks `msg` up on the instance, finds nothing, falls back to the class
attribute and mutates that shared list in place. -/
structure NagiosClassState where
  msg : List String
  perfdata : List String
deriving DecidableEq, Repr

/-- The class state at interpreter start: both class-level lists empty. -/
def initialClassState : NagiosClassState := { msg := [], perfdata := [] }

/-- The instance dictionary a `NagiosMessage()` call produces: `__init__`
assigns only `status_code`, never `msg` or `perfdata`. -/
structure NagiosInstance where
  status_code : Nat
deriving DecidableEq, Repr

/-- Embeds `NagiosMessage.__init__` under the class-attribute model: a fresh
instance with status OK; the class state is untouched. -/
def newInstance : NagiosInstance := { status_code := NAGIOS_STATUS_OK }

/-- Embeds `add_msg` under the class-attribute model: `self.msg` resolves to the
class attribute, and `.append` mutates that shared list. The instance is
unchanged. -/
def addMsgShared (cls : NagiosClassState) (_inst : NagiosInstance) (s : String) :
    NagiosClassState :=
  { cls with msg := cls.msg ++ [s] }

/-- Embeds `add_perfdata` under the class-attribute model: the datastr is
appended to the shared class-level list. -/
def addPerfdataShared (cls : NagiosClassState) (_inst : NagiosInstance) (datastr : String) :
    NagiosClassState :=
  { cls with perfdata := cls.perfdata ++ [datastr] }

/-- What `inst.msg` evaluates to: the instance has no own `msg`
attribute, so the lookup yields the class attribute. -/
def observedMsg (cls : NagiosClassState) (_inst : NagiosInstance) : List String :=
  cls.msg

/-- What `inst.perfdata` evaluates to: the class attribute. -/
def observedPerfdata (cls : NagiosClassState) (_inst : NagiosInstance) : List String :=
  cls.perfdata

/-- One record of the array `Plugin.get_broken_images` builds in the
page: `src`, `naturalWidth`, `naturalHeight` of one `document.images`
entry (the dimensions are ints after the `int(...)` coercions). -/
structure ImageInfo where
  src : String
  naturalWidth : Int
  naturalHeight : Int
deriving DecidableEq, Repr

/-- The loop of `Plugin.get_broken_images` (plugin.py lines 299..306):
start from an empty list and append `image['src']` for each record whose
`naturalWidth` and `naturalHeight` are both falsy (zero). -/
def get_broken_images (images : List ImageInfo) : List String :=
  images.foldl
    (fun broken_images image =>
      if image.naturalWidth = 0 ∧ image.naturalHeight = 0 then
        broken_images ++ [image.src]
      else broken_images)
    []

/-- A concrete parsed command line used to evaluate the supervisor at
specific inputs. -/
def cfgEx : Config := { host := "localhost", timeout := 60, browser := "firefox" }

/-- The status code each handler branch of `Plugin.start` leaves behind,
by outcome: the try-body ending normally leaves OK; the timeout handler
raises to CRITICAL; the connection handler dies in the TypeError before
its `raise_status`, leaving OK; the driver-init handler raises to
UNKNOWN; the generic handler raises to CRITICAL. -/
def handlerStatus : RunOutcome → Nat
  | .success => NAGIOS_STATUS_OK
  | .globalTimeout => NAGIOS_STATUS_CRITICAL
  | .connFault => NAGIOS_STATUS_OK
  | .driverInitFault => NAGIOS_STATUS_UNKNOWN
  | .generic _ _ => NAGIOS_STATUS_CRITICAL

/-- Lemma: `add_msg` leaves the status code alone. -/
@[simp] lemma add_msg_status (m : NagiosMessage) (s : String) :
    (m.add_msg s).status_code = m.status_code := rfl

/-- Lemma: `add_msg` appends one message. -/
@[simp] lemma add_msg_msg (m : NagiosMessage) (s : String) :
    (m.add_msg s).msg = m.msg ++ [s] := rfl

/-- Lemma: `add_msg` leaves the perfdata alone. -/
@[simp] lemma add_msg_perfdata (m : NagiosMessage) (s : String) :
    (m.add_msg s).perfdata = m.perfdata := rfl

/-- Lemma: `add_perfdata` leaves the status code alone. -/
@[simp] lemma add_perfdata_status (m : NagiosMessage) (label uom : String) (r w c : ℚ) :
    (m.add_perfdata label uom r w c).status_code = m.status_code := rfl

/-- Lemma: `add_perfdata` leaves the messages alone. -/
@[simp] lemma add_perfdata_msg (m : NagiosMessage) (label uom : String) (r w c : ℚ) :
    (m.add_perfdata label uom r w c).msg = m.msg := rfl

/-- Lemma: one `raise_status` call computes the maximum of the current
status and the argument. -/
lemma raise_status_status_code (m : NagiosMessage) (x : Nat) :
    (m.raise_status x).status_code = max m.status_code x := by
  unfold NagiosMessage.raise_status
  split <;> simp <;> omega

/-- Lemma: `raise_status` leaves the messages alone. -/
@[simp] lemma raise_status_msg (m : NagiosMessage) (x : Nat) :
    (m.raise_status x).msg = m.msg := by
  unfold NagiosMessage.raise_status
  split <;> rfl

/-- Lemma: `raise_status` leaves the perfdata alone. -/
@[simp] lemma raise_status_perfdata (m : NagiosMessage) (x : Nat) :
    (m.raise_status x).perfdata = m.perfdata := by
  unfold NagiosMessage.raise_status
  split <;> rfl

/-- Lemma: a sequence of `raise_status` calls folds `max` over the
escalated values. -/
lemma raiseAll_status (xs : List Nat) : ∀ m : NagiosMessage,
    (raiseAll m xs).status_code = xs.foldl max m.status_code := by
  induction xs with
  | nil => intro m; rfl
  | cons x xs ih =>
    intro m
    show (raiseAll (m.raise_status x) xs).status_code = xs.foldl max (m.status_code ⊔ x)
    rw [ih, raise_status_status_code]

/-- Lemma: the seed of a `max` fold never exceeds the fold's value. -/
lemma le_foldl_max (xs : List Nat) : ∀ a : Nat, a ≤ xs.foldl max a := by
  induction xs with
  | nil => intro a; exact le_refl a
  | cons x xs ih => intro a; exact le_trans (Nat.le_max_left a x) (ih (max a x))

/-- Lemma: the loop of `get_broken_images` with an arbitrary accumulator
appends exactly the sources of the both-dimensions-zero records, in
order. -/
lemma broken_go (images : List ImageInfo) : ∀ acc : List String,
    images.foldl
      (fun broken_images image =>
        if image.naturalWidth = 0 ∧ image.naturalHeight = 0 then
          broken_images ++ [image.src]
        else broken_images) acc
      = acc ++ (images.filter
          (fun i => decide (i.naturalWidth = 0 ∧ i.naturalHeight = 0))).map ImageInfo.src := by
  induction images with
  | nil => intro acc; simp
  | cons i is ih =>
    intro acc
    by_cases h : i.naturalWidth = 0 ∧ i.naturalHeight = 0
    · simp [List.filter_cons, h, ih]
    · simp [List.filter_cons, h, ih]

/-- Lemma: the status code the supervisor's fault dispatch leaves on a
fresh aggregator, by outcome. Pure reduction: the status path of every
handler is independent of the host, timeout and exception strings. -/
lemma handleFault_status (cfg : Config) (o : RunOutcome) :
    (handleFault cfg NagiosMessage.new o).1.status_code = handlerStatus o := by
  cases o <;> rfl

/-- C1: the claim reads message and sample storage as per-instance state —
every fresh `NagiosMessage` starts with empty `msg` and `perfdata` and
instances are independent. In the source `msg = []` and `perfdata = []`
are class attributes and `__init__` never assigns instance-level lists, so
`add_msg` on one aggregator mutates the list every aggregator sees: after
a first aggregator adds a message, a second, freshly constructed
aggregator already observes that message, although the class state began
empty. -/
theorem C1_class_attribute_sharing :
    observedMsg (addMsgShared initialClassState newInstance "message from first aggregator")
        newInstance = ["message from first aggregator"] ∧
    observedMsg (addMsgShared initialClassState newInstance "message from first aggregator")
        newInstance ≠ [] ∧
    observedMsg initialClassState newInstance = [] := by
  refine ⟨rfl, ?_, rfl⟩
  decide

/-- C2 counterexample: on the invalid-browser short-circuit the process
exits (with the UNKNOWN code) without emitting any report line, so the
claim that every exit path, that short-circuit included, prints exactly
one rendered report is false: the trace of `Plugin.__init__` with browser
name `netscape` is a bare exit, with no print event. -/
theorem C2_counterexample :
    (pluginInit "netscape").2 = [Event.exit 3] ∧
    (pluginInit "netscape").2.countP Event.isPrint = 0 := by
  decide

/-- C2 amended: on every exit path of `start` — success and every fault —
exactly one report line is printed and the process exits last, with a code
equal to the final severity, which is at most 3; the invalid-browser
short-circuit in `__init__` also exits with the severity's code (UNKNOWN),
but emits no report line at all. -/
theorem C2_amended :
    (∀ (cfg : Config) (o : RunOutcome) (d : Bool),
      (start cfg o d).2.countP Event.isPrint = 1 ∧
      (start cfg o d).2.getLast? = some (Event.exit (start cfg o d).1.status_code) ∧
      (start cfg o d).1.status_code ≤ NAGIOS_STATUS_UNKNOWN) ∧
    (∀ b : String, capabilityNames.contains b = false →
      (pluginInit b).2 = [Event.exit NAGIOS_STATUS_UNKNOWN] ∧
      (pluginInit b).2.countP Event.isPrint = 0 ∧
      (pluginInit b).1.status_code = NAGIOS_STATUS_UNKNOWN) := by
  constructor
  · intro cfg o d
    refine ⟨?_, ?_, ?_⟩
    · simp only [start, List.countP_append, List.countP_cons, List.countP_nil, Event.isPrint,
        apply_ite (List.countP Event.isPrint)]
      simp [Event.isPrint]
    · simp only [start]
      rw [List.getLast?_append_of_ne_nil]
      · rfl
      · simp
    · simp only [start, handleFault_status]
      cases o <;> simp [handlerStatus, NAGIOS_STATUS_OK, NAGIOS_STATUS_WARNING,
        NAGIOS_STATUS_CRITICAL, NAGIOS_STATUS_UNKNOWN]
  · intro b h
    simp only [pluginInit, h]
    exact ⟨rfl, rfl, rfl⟩

/-- C2 witness: the amended lifecycle theorem evaluated on a concrete
run and on a concrete invalid browser name. -/
theorem C2_amended_witness :
    (start cfgEx .success true).2.countP Event.isPrint = 1 ∧
    (pluginInit "netscape").2 = [Event.exit NAGIOS_STATUS_UNKNOWN] :=
  ⟨(C2_amended.1 cfgEx .success true).1, (C2_amended.2 "netscape" (by decide)).1⟩

/-- C3: for any sequence of `raise_status` calls with values in
{OK, WARNING, CRITICAL} on one aggregator, the final severity is the
maximum of the initial severity and all escalated values; raising a value
at or below the current severity leaves the aggregator untouched; and the
severity never decreases across the sequence. -/
theorem C3_escalation_monotone (m : NagiosMessage) (xs : List Nat)
    (h : ∀ x ∈ xs, x ≤ NAGIOS_STATUS_CRITICAL) :
    (raiseAll m xs).status_code = xs.foldl max m.status_code ∧
    (∀ x, x ≤ m.status_code → m.raise_status x = m) ∧
    m.status_code ≤ (raiseAll m xs).status_code := by
  refine ⟨raiseAll_status xs m, ?_, ?_⟩
  · intro x hx
    unfold NagiosMessage.raise_status
    rw [if_neg (by omega)]
  · rw [raiseAll_status xs m]
    exact le_foldl_max xs m.status_code

/-- C3 witness: the escalation theorem evaluated on the sequence
WARNING, CRITICAL, WARNING from a fresh aggregator: the result is
CRITICAL. -/
theorem C3_escalation_monotone_witness :
    (raiseAll NagiosMessage.new [1, 2, 1]).status_code = 2 :=
  ((C3_escalation_monotone NagiosMessage.new [1, 2, 1] (by decide)).1).trans (by decide)

/-- C4 counterexample: the claim says a raise inside the scoped block
still gets the elapsed-time sample and message recorded before it
propagates. In the source `benchmark` is a bare-yield context manager
with no try/finally, so when the block raises after 1 second on a fresh
aggregator, nothing at all is recorded — no perfdata sample and no
message — and the exception propagates. -/
theorem C4_counterexample :
    (benchmark NagiosMessage.new "open_homepage" 3 5 (.raises 1)).1.perfdata = [] ∧
    (benchmark NagiosMessage.new "open_homepage" 3 5 (.raises 1)).1.msg = [] ∧
    (benchmark NagiosMessage.new "open_homepage" 3 5 (.raises 1)).2 = true := by
  decide

/-- C4 amended: if the scoped block raises, `benchmark` records nothing —
the aggregator is returned exactly as it was, with no sample and no
elapsed-time message — and the exception propagates to the caller. -/
theorem C4_amended (m : NagiosMessage) (label : String) (warning critical elapsed : ℚ) :
    benchmark m label warning critical (.raises elapsed) = (m, true) := rfl

/-- C5: `add_perfdata` with label `x`, unit `s`, value 2, warn 3, crit 5
and unset min/max appends exactly the byte string the claim gives, with
min and max rendered empty; and the rendered report of any aggregator
whose status is one of the four Nagios codes is exactly the severity
prefix, the messages joined with comma-space, the pipe separator and the
space-joined samples (the spec-side `renderSpec`). Both are pure
functions of the aggregator state, so rendering an unmutated aggregator
always returns the identical string. -/
theorem C5_render_pure (m : NagiosMessage) (h : m.status_code ≤ 3) :
    (NagiosMessage.add_perfdata m "x" "s" 2 3 5).perfdata = m.perfdata ++ ["'x'=2s;3;5;;"] ∧
    m.toStr = renderSpec m := by
  constructor
  · show m.perfdata ++ [_] = _
    congr 1
  · unfold NagiosMessage.toStr renderSpec NagiosMessage.prepend_nagios_output
    unfold NAGIOS_STATUS_OK NAGIOS_STATUS_WARNING NAGIOS_STATUS_CRITICAL NAGIOS_STATUS_UNKNOWN
    split_ifs <;> first | rfl | omega

/-- C5 witness: the rendering theorem evaluated on a fresh aggregator. -/
theorem C5_render_pure_witness :
    (NagiosMessage.add_perfdata NagiosMessage.new "x" "s" 2 3 5).perfdata
        = NagiosMessage.new.perfdata ++ ["'x'=2s;3;5;;"] ∧
    NagiosMessage.new.toStr = renderSpec NagiosMessage.new :=
  C5_render_pure NagiosMessage.new (by decide)

/-- C6: when the scoped block completes, `benchmark` always appends the
elapsed-time message and the perfdata sample; then, if elapsed exceeds
the critical threshold, it appends exactly the exceeded-critical message
and escalates to CRITICAL; otherwise, if elapsed exceeds the warning
threshold, exactly the exceeded-warning message and WARNING; otherwise
neither threshold message and no escalation. The message-list equalities
show the critical check takes precedence and at most one threshold
message is added. -/
theorem C6_threshold_evaluation (m : NagiosMessage) (label : String)
    (warning critical elapsed : ℚ) :
    (benchmark m label warning critical (.completes elapsed)).1.perfdata
        = (m.add_perfdata label UOM_SEC elapsed warning critical).perfdata ∧
    (elapsed > critical →
      (benchmark m label warning critical (.completes elapsed)).1.msg
          = m.msg ++ [label ++ " executed in " ++ pyStr elapsed ++ " seconds",
              "'" ++ label ++ "' exceeded critical threshold of " ++ pyStr critical] ∧
      (benchmark m label warning critical (.completes elapsed)).1.status_code
          = max m.status_code NAGIOS_STATUS_CRITICAL) ∧
    (elapsed ≤ critical → elapsed > warning →
      (benchmark m label warning critical (.completes elapsed)).1.msg
          = m.msg ++ [label ++ " executed in " ++ pyStr elapsed ++ " seconds",
              "'" ++ label ++ "' exceeded warning threshold of " ++ pyStr warning] ∧
      (benchmark m label warning critical (.completes elapsed)).1.status_code
          = max m.status_code NAGIOS_STATUS_WARNING) ∧
    (elapsed ≤ critical → elapsed ≤ warning →
      (benchmark m label warning critical (.completes elapsed)).1.msg
          = m.msg ++ [label ++ " executed in " ++ pyStr elapsed ++ " seconds"] ∧
      (benchmark m label warning critical (.completes elapsed)).1.status_code
          = m.status_code) := by
  refine ⟨?_, ?_, ?_, ?_⟩
  · simp only [benchmark]
    split
    · simp [NagiosMessage.add_perfdata]
    · split
      · simp [NagiosMessage.add_perfdata]
      · simp [NagiosMessage.add_perfdata]
  · intro h
    simp only [benchmark, if_pos h]
    constructor
    · simp
    · rw [raise_status_status_code]; simp
  · intro h1 h2
    simp only [benchmark, if_neg (not_lt.mpr h1), if_pos h2]
    constructor
    · simp
    · rw [raise_status_status_code]; simp
  · intro h1 h2
    simp only [benchmark, if_neg (not_lt.mpr h1), if_neg (not_lt.mpr h2)]
    constructor
    · simp
    · simp

/-- C6 witness: the threshold theorem evaluated at a 3-second block with
warning 1 and critical 2 on a fresh aggregator: the severity becomes
CRITICAL. -/
theorem C6_threshold_evaluation_witness :
    (benchmark NagiosMessage.new "my_benchmark" 1 2 (.completes 3)).1.status_code
        = max NagiosMessage.new.status_code NAGIOS_STATUS_CRITICAL :=
  ((C6_threshold_evaluation NagiosMessage.new "my_benchmark" 1 2 3).2.1 (by norm_num)).2

/-- C7: the claim says the connection-fault handler appends the message
with the host substituted and escalates to UNKNOWN. The source formats
`'Could not connect to Selenium server at ' % self.args.host`, a format
string with no conversion specifier, so the percent operator raises
TypeError inside the handler: with host `localhost` no message is
appended, the severity stays OK, and the finally block prints the bare
OK report and exits 0. -/
theorem C7_connection_message_typeerror :
    pyFormat1 "Could not connect to Selenium server at " "localhost" = none ∧
    (handleFault cfgEx NagiosMessage.new .connFault).2 = true ∧
    (start cfgEx .connFault false).1.msg = [] ∧
    (start cfgEx .connFault false).1.status_code = NAGIOS_STATUS_OK ∧
    (start cfgEx .connFault false).1.toStr = "OK:  | " := by
  decide

/-- C8 counterexample: the claim says the deadline countdown is disarmed
once the supervised run completes, before teardown and report emission.
On a successful run with a 60-second timeout the trace contains the
teardown (driver quit) and the report print, but no `alarm(0)` disarm
event anywhere: the source never calls `signal.alarm(0)`. -/
theorem C8_counterexample :
    Event.setAlarm 0 ∉ (start cfgEx .success true).2 ∧
    Event.quitDriver ∈ (start cfgEx .success true).2 ∧
    (start cfgEx .success true).2.countP Event.isPrint = 1 := by
  decide

/-- C8 amended: the countdown is armed exactly once, at entry to the
supervised section, with the configured timeout, and is never disarmed:
the only alarm manipulation in any trace is that initial arming, so the
countdown stays active through driver release and report emission. -/
theorem C8_amended (cfg : Config) (o : RunOutcome) (d : Bool) :
    (start cfg o d).2.head? = some (Event.setAlarm cfg.timeout) ∧
    (start cfg o d).2.filter Event.isSetAlarm = [Event.setAlarm cfg.timeout] := by
  cases o <;> cases d <;>
    simp [start, driverAcquired, Event.isSetAlarm, List.filter]

/-- C9: `get_broken_images` returns exactly the sources of the records
whose naturalWidth and naturalHeight are both zero, in page order — and
hence the empty list when no record has both dimensions zero; on three
images of which exactly one has both dimensions zero it returns that
image's source alone. -/
theorem C9_broken_images :
    (∀ images : List ImageInfo,
      get_broken_images images =
        (images.filter (fun i => decide (i.naturalWidth = 0 ∧ i.naturalHeight = 0))).map
          ImageInfo.src) ∧
    get_broken_images
        [⟨"http://e.org/a.png", 100, 50⟩, ⟨"http://e.org/b.png", 0, 0⟩,
         ⟨"http://e.org/c.png", 0, 20⟩] = ["http://e.org/b.png"] := by
  constructor
  · intro images
    unfold get_broken_images
    rw [broken_go images []]
    rfl
  · decide

/-- C10: when the check routine raises an exception whose args tuple is
empty, the generic handler first rewrites the args to the one-element
no-message tuple and then appends the CRITICAL `FAILED:` message whose
message component is `No message in exception`, so the rendered text
never lacks the message part. -/
theorem C10_empty_args_rewritten (m : NagiosMessage) (kind : String) :
    handleGenericException m kind [] =
      (["No message in exception"],
       (m.add_msg ("FAILED: Exception of type: " ++ kind
          ++ ", message: No message in exception")).raise_status NAGIOS_STATUS_CRITICAL,
       false) := by
  have hs : "FAILED: Exception of type: " ++ kind ++ ", message: "
        ++ "No message in exception" ++ ""
      = "FAILED: Exception of type: " ++ kind ++ ", message: No message in exception" := by
    rw [String.append_empty, String.append_assoc]
    rfl
  calc handleGenericException m kind []
      = (["No message in exception"],
         (m.add_msg ("FAILED: Exception of type: " ++ kind ++ ", message: "
            ++ "No message in exception" ++ "")).raise_status NAGIOS_STATUS_CRITICAL,
         false) := rfl
    _ = _ := by rw [hs]

end Selmon
